import Mathlib

/-
  Verification of the openDartReaderServer gateway (src/main.py, src/models.py).

  The gateway is a thin HTTP facade over the external OpenDartReader provider.
  Each FastAPI handler is embedded as a pure Lean function; the external
  provider, the XML parser and the URL decoder are passed in as explicit
  arguments or modelled at the byte level where their behaviour is fixed
  (percent-decoding, string replacement).  Exceptions are modelled with an
  explicit exception type and `Except`; HTTP responses with an explicit
  response type.
-/

namespace OpenDart

/-- JSON values as produced by the gateway's serialization layer.
The constructors `infinityTok`, `negInfinityTok` and `nanTok` stand for the
non-standard tokens Python's serializer emits for IEEE positive infinity,
negative infinity and NaN: a tree containing one of them is not valid JSON. -/
inductive Json where
  | null
  | bool (b : Bool)
  | num (n : Int)
  | str (s : String)
  | infinityTok
  | negInfinityTok
  | nanTok
  | arr (elems : List Json)
  | obj (fields : List (String × Json))
  deriving Repr

/-- Exceptions that can cross the handler boundary in main.py: Python's
ValueError, FastAPI's HTTPException, and any other exception (runtimeError). -/
inductive PyExc where
  | valueError (msg : String)
  | httpException (status : Nat) (detail : String)
  | runtimeError (msg : String)
  deriving Repr, DecidableEq

/-- Python's str(e) for each modelled exception class.  Starlette's
HTTPException prints as "status: detail". -/
def PyExc.toMessage : PyExc → String
  | .valueError m => m
  | .httpException s d => Nat.repr s ++ ": " ++ d
  | .runtimeError m => m

/-- HTTP responses produced by the handlers: a JSON body (status 200), an XML
body with media type and Content-Disposition header (the Response(...) call in
get_document), or an HTTPException with status code and detail string. -/
inductive HResp where
  | ok (body : Json)
  | okXml (content : String) (mediaType : String) (contentDisposition : String)
  | error (status : Nat) (detail : String)
  deriving Repr

/-- Whether a response is an HTTPException. -/
def HResp.isError : HResp → Bool
  | .error _ _ => true
  | _ => false

/-- One cell of a pandas DataFrame as the gateway sees it: a string, a finite
number, positive or negative infinity, NaN, or Python None. -/
inductive Cell where
  | str (s : String)
  | num (n : Int)
  | posInf
  | negInf
  | nan
  | null
  deriving Repr, DecidableEq

/-- A DataFrame row, as produced by to_dict with orient records: column name
paired with the cell value. -/
abbrev Row := List (String × Cell)

/-- A DataFrame as a list of rows, in the provider's row order. -/
abbrev Df := List Row

/-- First sanitization step of main.py lines 133 and 177: the call
data.replace with [np.inf, -np.inf] and np.nan turns both infinities
into NaN and leaves every other cell unchanged. -/
def replaceInfWithNan : Cell → Cell
  | .posInf => .nan
  | .negInf => .nan
  | c => c

/-- Second sanitization step of main.py lines 135 and 178: the call
data.where with pd.notnull and None turns every missing value (NaN) into
Python None and leaves every non-missing cell unchanged. -/
def nanToNone : Cell → Cell
  | .nan => .null
  | c => c

/-- The combined numeric sanitization applied to one cell. -/
def sanitizeCell (c : Cell) : Cell := nanToNone (replaceInfWithNan c)

/-- The combined numeric sanitization applied to a whole DataFrame. -/
def sanitizeDf (df : Df) : Df :=
  df.map (fun r => r.map (fun kc => (kc.1, sanitizeCell kc.2)))

/-- Serialization of one cell: None becomes JSON null; infinities and NaN
become the non-JSON tokens Python's serializer would emit for them. -/
def cellToJson : Cell → Json
  | .str s => .str s
  | .num n => .num n
  | .posInf => .infinityTok
  | .negInf => .negInfinityTok
  | .nan => .nanTok
  | .null => .null

/-- Serialization of a DataFrame to the JSON array that to_dict with orient
records produces, preserving the provider's row order. -/
def recordsJson (df : Df) : Json :=
  .arr (df.map (fun r => .obj (r.map (fun kc => (kc.1, cellToJson kc.2)))))

/-- Python's str.replace applied character-wise: every ampersand is replaced
by the five characters of the amp entity reference (main.py line 86). -/
def escapeAmpChars : List Char → List Char
  | [] => []
  | c :: rest =>
    if c = '&' then '&' :: 'a' :: 'm' :: 'p' :: ';' :: escapeAmpChars rest
    else c :: escapeAmpChars rest

/-- The escape step of get_document: xml_text.replace of ampersand with the
amp entity reference. -/
def escapeAmp (s : String) : String := ⟨escapeAmpChars s.data⟩

/-- Ampersand well-formedness of XML character data: every ampersand starts
an amp entity reference.  This is the aspect of XML well-formedness that the
escape step is responsible for. -/
def ampOk : List Char → Bool
  | [] => true
  | c :: rest =>
    if c = '&' then
      match rest with
      | a :: m :: p :: semi :: rest2 =>
        if a = 'a' ∧ m = 'm' ∧ p = 'p' ∧ semi = ';' then ampOk rest2 else false
      | _ => false
    else ampOk rest

/-- Value of a hexadecimal digit character, if it is one. -/
def hexVal (c : Char) : Option Nat :=
  if '0' ≤ c ∧ c ≤ '9' then some (c.toNat - 48)
  else if 'a' ≤ c ∧ c ≤ 'f' then some (c.toNat - 87)
  else if 'A' ≤ c ∧ c ≤ 'F' then some (c.toNat - 55)
  else none

/-- Percent-decoding of urllib.parse.unquote, modelled at the byte level:
a percent sign followed by two hex digits decodes to that code point, any
other character is kept.  (Python additionally reassembles multi-byte UTF-8
sequences; that refinement is irrelevant to the properties proved here.) -/
def unquoteChars : List Char → List Char
  | '%' :: h1 :: h2 :: rest =>
    match hexVal h1, hexVal h2 with
    | some a, some b => Char.ofNat (16 * a + b) :: unquoteChars rest
    | _, _ => '%' :: unquoteChars (h1 :: h2 :: rest)
  | c :: rest => c :: unquoteChars rest
  | [] => []

/-- URL decoding of a path parameter (main.py line 59). -/
def unquote (s : String) : String := ⟨unquoteChars s.data⟩

/-- Last decimal digit of a natural number, as a character. -/
def decDigit (n : Nat) : Char :=
  match n % 10 with
  | 0 => '0' | 1 => '1' | 2 => '2' | 3 => '3' | 4 => '4'
  | 5 => '5' | 6 => '6' | 7 => '7' | 8 => '8' | _ => '9'

/-- A Python datetime.date: FastAPI parses the start and end query parameters
into this type.  Python guarantees 1 ≤ year ≤ 9999, 1 ≤ month ≤ 12 and
1 ≤ day ≤ 31 for every constructed date. -/
structure Date where
  year : Nat
  month : Nat
  day : Nat
  deriving Repr, DecidableEq

/-- date.isoformat, the zero-padded YYYY-MM-DD rendering used at main.py
lines 42 and 43 (format %04d-%02d-%02d, written out digit by digit). -/
def Date.isoformat (d : Date) : String :=
  ⟨[decDigit (d.year / 1000), decDigit (d.year / 100), decDigit (d.year / 10),
    decDigit d.year, '-', decDigit (d.month / 10), decDigit d.month, '-',
    decDigit (d.day / 10), decDigit d.day]⟩

/-- Recognizer for the YYYY-MM-DD shape: ten characters, digits everywhere
except dashes at positions 4 and 7. -/
def isIsoDateFormat (s : String) : Bool :=
  match s.data with
  | [y1, y2, y3, y4, h1, m1, m2, h2, d1, d2] =>
    y1.isDigit && y2.isDigit && y3.isDigit && y4.isDigit && (h1 == '-') &&
    m1.isDigit && m2.isDigit && (h2 == '-') && d1.isDigit && d2.isDigit
  | _ => false

/-- The keyword arguments of the dart.list call built at main.py lines 40-47:
dates are rendered with isoformat when present and passed as None otherwise. -/
structure ListRequest where
  corp : Option String
  start : Option String
  endd : Option String
  kind : Option String
  kind_detail : Option String
  final : Bool
  deriving Repr, DecidableEq

/-- Construction of the dart.list keyword arguments from the handler's
query parameters (main.py lines 40-47).  The field endd carries the
argument the source spells end. -/
def listRequest (corp : Option String) (start endDate : Option Date)
    (kind kind_detail : Option String) (final : Bool) : ListRequest :=
  { corp := corp
    start := start.map Date.isoformat
    endd := endDate.map Date.isoformat
    kind := kind
    kind_detail := kind_detail
    final := final }

/-- The keyword arguments of the dart.report call built at main.py
lines 166-171. -/
structure ReportRequest where
  corp : String
  key_word : String
  bsns_year : Int
  reprt_code : String
  deriving Repr, DecidableEq

/-- Construction of the dart.report keyword arguments in get_dividend
(main.py lines 166-171): the keyword is the fixed Korean word for dividend. -/
def dividendRequest (corp : String) (year : Int) (quarter : String) :
    ReportRequest :=
  { corp := corp, key_word := "배당", bsns_year := year, reprt_code := quarter }

/-- Handler of GET /list (main.py lines 30-52).  The provider argument stands
for dart.list; its outcome is either a DataFrame or a raised exception.
ValueError maps to 400, anything else to 500, each carrying str(e); a
DataFrame is returned as to_dict records, in the provider's order. -/
def get_dart_list (provider : ListRequest → Except PyExc Df)
    (corp : Option String) (start endDate : Option Date)
    (kind kind_detail : Option String) (final : Bool) : HResp :=
  match provider (listRequest corp start endDate kind kind_detail final) with
  | .ok df => .ok (recordsJson df)
  | .error (.valueError m) => .error 400 m
  | .error e => .error 500 e.toMessage

/-- Handler of GET /companies/name/:name (main.py lines 55-68).  The provider
argument stands for dart.company_by_name applied to the decoded name.  A
non-empty result is returned as-is; an empty one yields the not-found message
object; any exception maps to 400. -/
def get_company_by_name (provider : String → Except PyExc (List Json))
    (name : String) : HResp :=
  match provider (unquote name) with
  | .ok result =>
    if result.isEmpty then
      .ok (.obj [("message",
        .str ("No companies found with name containing '" ++ unquote name ++ "'"))])
    else .ok (.arr result)
  | .error e => .error 400 e.toMessage

/-- Handler of GET /companies/code/:company_code (main.py lines 71-77).  The
result of dart.company is returned as-is; any exception maps to 400. -/
def get_company (providerResult : Except PyExc Json) : HResp :=
  match providerResult with
  | .ok r => .ok r
  | .error e => .error 400 e.toMessage

/-- The try body of get_document (main.py lines 85-101): escape ampersands in
the provider's text, check the result parses as XML (raising HTTPException 500
on ET.ParseError), and on success build the XML response with its media type
and Content-Disposition header. -/
def documentTryBody (text : String) (parsesAsXml : String → Bool)
    (rcp_no : String) : Except PyExc HResp :=
  let xml_text := escapeAmp text
  if parsesAsXml xml_text then
    .ok (.okXml xml_text "application/xml"
      ("attachment; filename=document_" ++ rcp_no ++ ".xml"))
  else .error (.httpException 500 "Invalid XML received from DART")

/-- Handler of GET /document/:rcp_no (main.py lines 80-107).  The providerText
argument stands for the dart.document call, parsesAsXml for ET.fromstring
succeeding.  A ValueError escaping the try body maps to 400 with str(e); any
other exception, including the HTTPException raised on XML-validation failure,
maps to 500 with the prefixed message. -/
def get_document (providerText : Except PyExc String)
    (parsesAsXml : String → Bool) (rcp_no : String) : HResp :=
  match providerText.bind (fun t => documentTryBody t parsesAsXml rcp_no) with
  | .ok r => r
  | .error (.valueError m) => .error 400 m
  | .error e => .error 500 ("An error occurred: " ++ e.toMessage)

/-- Handler of GET /finstates/all (main.py lines 110-144).  The provider
outcome stands for dart.finstate_all: None, or a DataFrame, or a raised
exception.  A None or empty DataFrame yields the no-data message; otherwise
the sanitized rows; ValueError maps to 400 and anything else to 500. -/
def get_finstate_all (providerResult : Except PyExc (Option Df)) : HResp :=
  match providerResult with
  | .ok data =>
    match data with
    | none => .ok (.obj [("message", .str "No data found.")])
    | some df =>
      if df.isEmpty then .ok (.obj [("message", .str "No data found.")])
      else .ok (recordsJson (sanitizeDf df))
  | .error (.valueError m) => .error 400 m
  | .error e => .error 500 e.toMessage

/-- Handler of GET /dividend/:corp (main.py lines 147-194).  The provider
argument stands for dart.report, called with the fixed dividend keyword.  A
None or empty DataFrame yields the Korean no-data message; otherwise the
response echoes corp, year and quarter next to the sanitized rows; ValueError
maps to 400 and anything else to 500 with the Korean prefixed message. -/
def get_dividend (provider : ReportRequest → Except PyExc (Option Df))
    (corp : String) (year : Int) (quarter : String) : HResp :=
  match provider (dividendRequest corp year quarter) with
  | .ok result =>
    match result with
    | none => .ok (.obj [("message", .str "배당 정보를 찾을 수 없습니다.")])
    | some df =>
      if df.isEmpty then .ok (.obj [("message", .str "배당 정보를 찾을 수 없습니다.")])
      else .ok (.obj [("corp", .str corp), ("year", .num year),
        ("quarter", .str quarter), ("data", recordsJson (sanitizeDf df))])
  | .error (.valueError m) => .error 400 m
  | .error e => .error 500 ("배당 정보 조회 중 오류가 발생했습니다: " ++ e.toMessage)

/-- HTTP status code of a response: 200 for a body, the carried code for an
HTTPException. -/
def HResp.status : HResp → Nat
  | .ok _ => 200
  | .okXml _ _ _ => 200
  | .error s _ => s

/-- A date collapsed to a single number for lexicographic comparison (used
only to state that the gateway forwards ranges with start after end). -/
def Date.toNat (d : Date) : Nat := d.year * 10000 + d.month * 100 + d.day

/-- A cell is JSON-safe when serializing it emits no infinity or NaN token. -/
def Cell.jsonSafe : Cell → Bool
  | .posInf => false
  | .negInf => false
  | .nan => false
  | _ => true

/-- A JSON tree contains no infinity or NaN token anywhere. -/
def Json.noBadTok : Json → Bool
  | .null => true
  | .bool _ => true
  | .num _ => true
  | .str _ => true
  | .infinityTok => false
  | .negInfinityTok => false
  | .nanTok => false
  | .arr xs => xs.attach.all (fun x => x.1.noBadTok)
  | .obj fs => fs.attach.all (fun f => f.1.2.noBadTok)
decreasing_by
  · simp_wf
    have h := List.sizeOf_lt_of_mem x.2
    omega
  · simp_wf
    have h := List.sizeOf_lt_of_mem f.2
    rcases f with ⟨⟨a, b⟩, hf⟩
    simp at h ⊢
    omega

/-- Module-level startup check of main.py lines 18-20: the credential is read
from the environment; a missing or empty value raises ValueError, so the
process refuses to start, and only a non-empty key reaches the provider
constructor on line 22. -/
def initApiKey (envValue : Option String) : Except PyExc String :=
  match envValue with
  | none => .error (.valueError "DART_API_KEY 환경 변수가 설정되지 않았습니다.")
  | some k =>
    if k = "" then .error (.valueError "DART_API_KEY 환경 변수가 설정되지 않았습니다.")
    else .ok k

/-! Helper lemmas shared by the claim theorems. -/

/-- Every ampersand in the output of the escape step starts an amp entity. -/
theorem ampOk_escapeAmpChars (l : List Char) : ampOk (escapeAmpChars l) = true := by
  induction l with
  | nil => rfl
  | cons c rest ih =>
    by_cases h : c = '&'
    · subst h
      simp only [escapeAmpChars, if_pos rfl]
      rw [ampOk.eq_def]
      simpa using ih
    · simp only [escapeAmpChars, if_neg h]
      rw [ampOk.eq_def]
      simpa [h] using ih

/-- The last-digit character is always a decimal digit. -/
theorem decDigit_isDigit (n : Nat) : (decDigit n).isDigit = true := by
  obtain ⟨k, hk, hlt⟩ : ∃ k, n % 10 = k ∧ k < 10 :=
    ⟨n % 10, rfl, Nat.mod_lt _ (by norm_num)⟩
  unfold decDigit
  rw [hk]
  interval_cases k <;> rfl

/-- Every rendered date has the YYYY-MM-DD shape. -/
theorem isoformat_shape (d : Date) : isIsoDateFormat d.isoformat = true := by
  simp [Date.isoformat, isIsoDateFormat, decDigit_isDigit]

/-- A sanitized cell serializes without infinity or NaN tokens. -/
theorem sanitizeCell_noBadTok (c : Cell) :
    (cellToJson (sanitizeCell c)).noBadTok = true := by
  cases c <;>
    simp [sanitizeCell, replaceInfWithNan, nanToNone, cellToJson, Json.noBadTok]

/-- The records serialization of a sanitized DataFrame emits no infinity or
NaN token anywhere in the JSON tree. -/
theorem recordsJson_sanitize_noBadTok (df : Df) :
    (recordsJson (sanitizeDf df)).noBadTok = true := by
  rw [recordsJson, Json.noBadTok, List.all_eq_true]
  rintro ⟨x, hx⟩ -
  simp only [List.mem_map] at hx
  obtain ⟨r, hr, rfl⟩ := hx
  rw [Json.noBadTok, List.all_eq_true]
  rintro ⟨f, hf⟩ -
  simp only [List.mem_map] at hf
  obtain ⟨kc, hkc, rfl⟩ := hf
  simp only [sanitizeDf, List.mem_map] at hr
  obtain ⟨r0, hr0, rfl⟩ := hr
  simp only [List.mem_map] at hkc
  obtain ⟨kc0, hkc0, rfl⟩ := hkc
  exact sanitizeCell_noBadTok kc0.2

/-- The dividend echo object emits no infinity or NaN token anywhere. -/
theorem dividendJson_noBadTok (c : String) (y : Int) (q : String) (df : Df) :
    (Json.obj [("corp", .str c), ("year", .num y), ("quarter", .str q),
      ("data", recordsJson (sanitizeDf df))]).noBadTok = true := by
  rw [Json.noBadTok, List.all_eq_true]
  rintro ⟨f, hf⟩ -
  simp only [List.mem_cons, List.not_mem_nil, or_false] at hf
  rcases hf with rfl | rfl | rfl | rfl
  · simp [Json.noBadTok]
  · simp [Json.noBadTok]
  · simp [Json.noBadTok]
  · exact recordsJson_sanitize_noBadTok df

/-- A nonempty list is not isEmpty. -/
theorem isEmpty_false_of_ne_nil {α : Type} {l : List α} (h : l ≠ []) :
    l.isEmpty = false := by
  cases l with
  | nil => exact absurd rfl h
  | cons a t => rfl

/-! Claim theorems. -/

/-- C1 (counterexample): the ampersand-escape step of get_document is not
idempotent and does double-escape an already-valid amp entity: applied to the
five-character text of one amp entity it yields the double-escaped form, and
applying it twice to a lone ampersand differs from applying it once. -/
theorem C1_counterexample :
    escapeAmp "&amp;" = "&amp;amp;" ∧ escapeAmp "&amp;" ≠ "&amp;" ∧
    escapeAmp (escapeAmp "&") ≠ escapeAmp "&" :=
  ⟨by decide, by decide, by decide⟩

/-- C1 (amended): the escape step of get_document replaces every ampersand,
including the one of an existing amp entity, so it is not idempotent; still,
for any raw provider text, every ampersand of the escaped result starts an
amp entity reference, so the escape never leaves the bare ampersand that
would make the XML ill-formed. -/
theorem C1_escape_leaves_no_bare_ampersand (s : String) :
    ampOk (escapeAmp s).data = true :=
  ampOk_escapeAmpChars s.data

/-- C2 (counterexample): in the company-by-code lookup a non-ValueError
provider failure is mapped to HTTP 400, not to the HTTP 500 the uniform
policy claims. -/
theorem C2_counterexample :
    get_company (.error (.runtimeError "connection reset")) =
      .error 400 "connection reset" ∧
    (get_company (.error (.runtimeError "connection reset"))).status = 400 ∧
    (400 : Nat) ≠ 500 :=
  ⟨rfl, rfl, by decide⟩

/-- C2 (amended): the ValueError-to-400 / other-failure-to-500 mapping holds
for the list, finstates, document and dividend operations, where the list and
finstates operations carry the failure's message verbatim while the document
and dividend operations prefix it in the generic case; the company-by-name
and company-by-code lookups instead map every failure, ValueError or not, to
HTTP 400 carrying its message. -/
theorem C2_error_mapping (m : String) (corp : Option String)
    (s e : Option Date) (kind kd : Option String) (final : Bool)
    (pXml : String → Bool) (rcp : String) (c : String) (y : Int) (q : String) :
    get_dart_list (fun _ => .error (.valueError m)) corp s e kind kd final =
      .error 400 m ∧
    get_dart_list (fun _ => .error (.runtimeError m)) corp s e kind kd final =
      .error 500 m ∧
    get_finstate_all (.error (.valueError m)) = .error 400 m ∧
    get_finstate_all (.error (.runtimeError m)) = .error 500 m ∧
    get_document (.error (.valueError m)) pXml rcp = .error 400 m ∧
    get_document (.error (.runtimeError m)) pXml rcp =
      .error 500 ("An error occurred: " ++ m) ∧
    get_dividend (fun _ => .error (.valueError m)) c y q = .error 400 m ∧
    get_dividend (fun _ => .error (.runtimeError m)) c y q =
      .error 500 ("배당 정보 조회 중 오류가 발생했습니다: " ++ m) ∧
    get_company_by_name (fun _ => .error (.valueError m)) c = .error 400 m ∧
    get_company_by_name (fun _ => .error (.runtimeError m)) c = .error 400 m ∧
    get_company (.error (.valueError m)) = .error 400 m ∧
    get_company (.error (.runtimeError m)) = .error 400 m :=
  ⟨rfl, rfl, rfl, rfl, rfl, rfl, rfl, rfl, rfl, rfl, rfl, rfl⟩

/-- C3: for any nonempty provider table, the finstates response is the
sanitized records and the dividend response wraps them; neither JSON tree
contains an infinity or NaN token anywhere, and every cell that held positive
or negative infinity, NaN or None in the provider's rows is sanitized to the
value that serializes as null. -/
theorem C3_no_infinity_or_nan_tokens
    (provider : ReportRequest → Except PyExc (Option Df)) (df : Df)
    (hne : df ≠ []) (c : String) (y : Int) (q : String)
    (hp : provider (dividendRequest c y q) = .ok (some df)) :
    get_finstate_all (.ok (some df)) = .ok (recordsJson (sanitizeDf df)) ∧
    (recordsJson (sanitizeDf df)).noBadTok = true ∧
    get_dividend provider c y q = .ok (.obj [("corp", .str c), ("year", .num y),
      ("quarter", .str q), ("data", recordsJson (sanitizeDf df))]) ∧
    (Json.obj [("corp", .str c), ("year", .num y), ("quarter", .str q),
      ("data", recordsJson (sanitizeDf df))]).noBadTok = true ∧
    df.all (fun r => r.all (fun kc =>
      kc.2.jsonSafe || (sanitizeCell kc.2 == Cell.null))) = true := by
  have hie := isEmpty_false_of_ne_nil hne
  refine ⟨by simp [get_finstate_all, hie], recordsJson_sanitize_noBadTok df,
    by simp [get_dividend, hp, hie], dividendJson_noBadTok c y q df, ?_⟩
  rw [List.all_eq_true]
  intro r hr
  rw [List.all_eq_true]
  intro kc hkc
  rcases kc with ⟨k, cell⟩
  cases cell <;> rfl

/-- C3 witness: the concrete facts at a one-row table holding a positive
infinity cell, queried through a provider that returns it. -/
theorem C3_witness :
    get_finstate_all (.ok (some [[("amount", Cell.posInf)]])) =
      .ok (recordsJson (sanitizeDf [[("amount", Cell.posInf)]])) ∧
    (recordsJson (sanitizeDf [[("amount", Cell.posInf)]])).noBadTok = true ∧
    get_dividend (fun _ => .ok (some [[("amount", Cell.posInf)]]))
        "005930" 2022 "11011" =
      .ok (.obj [("corp", .str "005930"), ("year", .num 2022),
        ("quarter", .str "11011"),
        ("data", recordsJson (sanitizeDf [[("amount", Cell.posInf)]]))]) ∧
    (Json.obj [("corp", .str "005930"), ("year", .num 2022),
      ("quarter", .str "11011"),
      ("data", recordsJson (sanitizeDf [[("amount", Cell.posInf)]]))]).noBadTok
      = true ∧
    ([[("amount", Cell.posInf)]] : Df).all (fun r => r.all (fun kc =>
      kc.2.jsonSafe || (sanitizeCell kc.2 == Cell.null))) = true :=
  C3_no_infinity_or_nan_tokens (fun _ => .ok (some [[("amount", Cell.posInf)]]))
    [[("amount", Cell.posInf)]] (by decide) "005930" 2022 "11011" rfl

/-- C4: when the provider finds no company for the decoded name fragment,
the company-by-name operation returns, with success status and not as an
error, the message object whose text embeds the URL-decoded input name. -/
theorem C4_company_by_name_not_found
    (provider : String → Except PyExc (List Json)) (name : String)
    (hp : provider (unquote name) = .ok []) :
    get_company_by_name provider name =
      .ok (.obj [("message", .str ("No companies found with name containing '"
        ++ unquote name ++ "'"))]) ∧
    (get_company_by_name provider name).isError = false := by
  refine ⟨by simp [get_company_by_name, hp], ?_⟩
  simp [get_company_by_name, hp, HResp.isError]

/-- C4 witness: the not-found response at a concrete percent-encoded name and
a provider with no matches. -/
theorem C4_witness :
    get_company_by_name (fun _ => .ok []) "Samsung%20Electronics" =
      .ok (.obj [("message", .str ("No companies found with name containing '"
        ++ unquote "Samsung%20Electronics" ++ "'"))]) ∧
    (get_company_by_name (fun _ => .ok []) "Samsung%20Electronics").isError
      = false :=
  C4_company_by_name_not_found (fun _ => .ok []) "Samsung%20Electronics" rfl

/-- C5: the finstates operation answers a None or empty provider table with
the structured no-data message object, which is not an empty collection, and
answers a nonempty table with the sanitized row collection. -/
theorem C5_finstate_no_data (df : Df) (hne : df ≠ []) :
    get_finstate_all (.ok none) =
      .ok (.obj [("message", .str "No data found.")]) ∧
    get_finstate_all (.ok (some [])) =
      .ok (.obj [("message", .str "No data found.")]) ∧
    get_finstate_all (.ok (some df)) = .ok (recordsJson (sanitizeDf df)) ∧
    (Json.obj [("message", Json.str "No data found.")]) ≠ Json.arr [] := by
  have hie := isEmpty_false_of_ne_nil hne
  exact ⟨rfl, rfl, by simp [get_finstate_all, hie], by simp⟩

/-- C5 witness: the concrete no-data and nonempty-table responses. -/
theorem C5_witness :
    get_finstate_all (.ok none) =
      .ok (.obj [("message", .str "No data found.")]) ∧
    get_finstate_all (.ok (some [])) =
      .ok (.obj [("message", .str "No data found.")]) ∧
    get_finstate_all (.ok (some [[("thstrm_amount", Cell.num 100)]])) =
      .ok (recordsJson (sanitizeDf [[("thstrm_amount", Cell.num 100)]])) ∧
    (Json.obj [("message", Json.str "No data found.")]) ≠ Json.arr [] :=
  C5_finstate_no_data [[("thstrm_amount", Cell.num 100)]] (by decide)

/-- C6: the provider call of the dividend operation always carries the fixed
Korean dividend keyword whatever the inputs are, and a successful nonempty
result echoes back exactly the input issuer identifier, year and report-type
code next to the sanitized data rows. -/
theorem C6_dividend_echo (provider : ReportRequest → Except PyExc (Option Df))
    (c : String) (y : Int) (q : String) (df : Df) (hne : df ≠ [])
    (hp : provider (dividendRequest c y q) = .ok (some df)) :
    (dividendRequest c y q).key_word = "배당" ∧
    get_dividend provider c y q = .ok (.obj [("corp", .str c), ("year", .num y),
      ("quarter", .str q), ("data", recordsJson (sanitizeDf df))]) := by
  have hie := isEmpty_false_of_ne_nil hne
  exact ⟨rfl, by simp [get_dividend, hp, hie]⟩

/-- C6 witness: the echo response and the fixed keyword at concrete inputs. -/
theorem C6_witness :
    (dividendRequest "005930" 2022 "11012").key_word = "배당" ∧
    get_dividend (fun _ => .ok (some [[("se", Cell.str "배당성향")]]))
        "005930" 2022 "11012" =
      .ok (.obj [("corp", .str "005930"), ("year", .num 2022),
        ("quarter", .str "11012"),
        ("data", recordsJson (sanitizeDf [[("se", Cell.str "배당성향")]]))]) :=
  C6_dividend_echo (fun _ => .ok (some [[("se", Cell.str "배당성향")]]))
    "005930" 2022 "11012" [[("se", Cell.str "배당성향")]] (by decide) rfl

/-- C7: the list operation renders present dates in YYYY-MM-DD form and
passes absent dates as None, enforces no start-before-end constraint (the
stated facts hold under the hypothesis that start is strictly after end), and
returns the provider's records verbatim in the provider's order. -/
theorem C7_list_pass_through (provider : ListRequest → Except PyExc Df)
    (corp kind kd : Option String) (final : Bool) (s e : Date) (df : Df)
    (hgt : e.toNat < s.toNat)
    (hp : provider (listRequest corp (some s) (some e) kind kd final) = .ok df) :
    (listRequest corp (some s) (some e) kind kd final).start =
      some s.isoformat ∧
    (listRequest corp (some s) (some e) kind kd final).endd =
      some e.isoformat ∧
    isIsoDateFormat s.isoformat = true ∧
    isIsoDateFormat e.isoformat = true ∧
    (listRequest corp none none kind kd final).start = none ∧
    (listRequest corp none none kind kd final).endd = none ∧
    get_dart_list provider corp (some s) (some e) kind kd final =
      .ok (recordsJson df) :=
  ⟨rfl, rfl, isoformat_shape s, isoformat_shape e, rfl, rfl,
    by simp [get_dart_list, hp]⟩

/-- C7 witness: the pass-through facts at a concrete range whose start is
after its end and a one-record provider result. -/
theorem C7_witness :
    (listRequest (some "005930") (some ⟨2023, 5, 1⟩) (some ⟨2023, 1, 1⟩)
      none none true).start = some (Date.isoformat ⟨2023, 5, 1⟩) ∧
    (listRequest (some "005930") (some ⟨2023, 5, 1⟩) (some ⟨2023, 1, 1⟩)
      none none true).endd = some (Date.isoformat ⟨2023, 1, 1⟩) ∧
    isIsoDateFormat (Date.isoformat ⟨2023, 5, 1⟩) = true ∧
    isIsoDateFormat (Date.isoformat ⟨2023, 1, 1⟩) = true ∧
    (listRequest (some "005930") none none none none true).start = none ∧
    (listRequest (some "005930") none none none none true).endd = none ∧
    get_dart_list (fun _ => .ok [[("rcept_no", Cell.str "20230501000001")]])
        (some "005930") (some ⟨2023, 5, 1⟩) (some ⟨2023, 1, 1⟩)
        none none true =
      .ok (recordsJson [[("rcept_no", Cell.str "20230501000001")]]) :=
  C7_list_pass_through (fun _ => .ok [[("rcept_no", Cell.str "20230501000001")]])
    (some "005930") none none true ⟨2023, 5, 1⟩ ⟨2023, 1, 1⟩
    [[("rcept_no", Cell.str "20230501000001")]] (by decide) rfl

/-- C8: the document operation either returns the escaped text as an XML
response with the application/xml media type and the attachment filename
document_rcp_no.xml when it parses, or surfaces an HTTP 500 server error when
it does not, never returning the malformed XML. -/
theorem C8_document_xml_or_500 (text rcp_no : String)
    (parsesAsXml : String → Bool) :
    get_document (.ok text) parsesAsXml rcp_no =
      if parsesAsXml (escapeAmp text) then
        .okXml (escapeAmp text) "application/xml"
          ("attachment; filename=document_" ++ rcp_no ++ ".xml")
      else .error 500 "An error occurred: 500: Invalid XML received from DART"
      := by
  by_cases h : parsesAsXml (escapeAmp text)
  · simp [get_document, documentTryBody, Except.bind, h]
  · simp only [get_document, documentTryBody, Except.bind, h, Bool.false_eq_true,
      if_false]
    rfl

/-- C9: a missing or empty DART_API_KEY environment value makes startup fail
with the configuration ValueError, and any startup that succeeds did read a
non-empty credential from the environment, so no request is served without
it. -/
theorem C9_startup_requires_key (envValue : Option String) (k : String)
    (hk : initApiKey envValue = .ok k) :
    (envValue = some k ∧ k ≠ "") ∧
    initApiKey none =
      .error (.valueError "DART_API_KEY 환경 변수가 설정되지 않았습니다.") ∧
    initApiKey (some "") =
      .error (.valueError "DART_API_KEY 환경 변수가 설정되지 않았습니다.") := by
  refine ⟨?_, rfl, rfl⟩
  cases envValue with
  | none => exact absurd hk (by simp [initApiKey])
  | some v =>
    by_cases hv : v = ""
    · subst hv
      exact absurd hk (by simp [initApiKey])
    · have hvk : v = k := by simpa [initApiKey, hv] using hk
      subst hvk
      exact ⟨rfl, hv⟩

/-- C9 witness: startup with a concrete non-empty key succeeds and the
negative facts hold. -/
theorem C9_witness :
    ((some "dartkey123" : Option String) = some "dartkey123" ∧
      "dartkey123" ≠ "") ∧
    initApiKey none =
      .error (.valueError "DART_API_KEY 환경 변수가 설정되지 않았습니다.") ∧
    initApiKey (some "") =
      .error (.valueError "DART_API_KEY 환경 변수가 설정되지 않았습니다.") :=
  C9_startup_requires_key (some "dartkey123") "dartkey123" rfl

/-- C10: when XML validation fails in the document operation, the inner
HTTPException 500 is itself caught by the surrounding generic handler and
re-wrapped, so the client-visible detail is the prefixed string and not the
bare validation message. -/
theorem C10_wrapped_500_detail (text rcp_no : String)
    (parsesAsXml : String → Bool)
    (h : parsesAsXml (escapeAmp text) = false) :
    get_document (.ok text) parsesAsXml rcp_no =
      .error 500 "An error occurred: 500: Invalid XML received from DART" := by
  simp only [get_document, documentTryBody, Except.bind, h, Bool.false_eq_true,
    if_false]
  rfl

/-- C10 witness: the wrapped detail at a concrete document text whose escaped
form fails to parse. -/
theorem C10_witness :
    get_document (.ok "<root>&</root>") (fun _ => false) "20190401004781" =
      .error 500 "An error occurred: 500: Invalid XML received from DART" :=
  C10_wrapped_500_detail "<root>&</root>" "20190401004781" (fun _ => false) rfl

end OpenDart
